import Mathlib

/-!
Shallow embedding of the Switchmate BLE switch client (`src/switch.py`).

The Python code drives a Bluetooth peripheral through the `bleak` library.
We model the transport as an oracle: each connect-plus-I/O attempt draws its
outcomes (connect success, capability-probe payload, read/write outcome) from
an `AttemptBehavior`; a whole `_communicate` call is given one behaviour per
attempt via a function `Nat → AttemptBehavior`.  Operations return, besides
the updated session state and the boolean the Python method returns, a trace
of the transport calls issued (in order) and the number of connect-plus-I/O
attempts performed.
-/

namespace Switchmate

/-- Byte strings (Python `bytes` / `bytearray`) as lists of byte values. -/
abbrev ByteStr := List Nat

/-- `ON_KEY = b"\x01"` (src/switch.py line 39). -/
def ON_KEY : ByteStr := [1]

/-- `OFF_KEY = b"\x00"` (src/switch.py line 40). -/
def OFF_KEY : ByteStr := [0]

/-- The `b"Bright"` model marker compared against the capability-probe
payload (src/switch.py line 69): ASCII codes of the six characters. -/
def brightPayload : ByteStr := [66, 114, 105, 103, 104, 116]

/-- Model of a `bleak.BleakClient` transport handle: the only observable the
client code consults is `is_connected`. -/
structure BleakClient where
  connected : Bool
deriving DecidableEq, Repr

/-- The mutable fields of a `Switchmate` object (src/switch.py lines 48-54):
`state` is the cached on/off value, `device` the optional transport handle,
`available` the availability flag, `flip_on_off` the (immutable) polarity
flip, `handle` the optional cached command characteristic handle. -/
structure SwitchState where
  state : Bool
  device : Option BleakClient
  available : Bool
  flip_on_off : Bool
  handle : Option Nat
deriving DecidableEq, Repr

/-- Transport calls issued by the client, recorded in order.  `readChar` and
`writeChar` record the handle argument exactly as passed (the Python code can
pass `self._handle`, which may be `None`); `writeChar` also records the
payload and the acknowledgement flag. -/
inductive Event where
  | disconnectCall : Event
  | newDevice : Event
  | connectCall : Event
  | readChar (handle : Option Nat) : Event
  | writeChar (handle : Option Nat) (payload : ByteStr) (ack : Bool) : Event
deriving DecidableEq, Repr

/-- Outcomes the transport produces during one connect-plus-I/O attempt:
whether `disconnect()` succeeds, whether `connect()` succeeds, the result of
the capability probe `read_gatt_char(21)` (`Except.error` models a raised
`BleakError`/timeout), and the result of the attempt's read or write I/O
(`Except.ok p` is the payload for a read, or an acknowledged write; the
payload is ignored for writes). -/
structure AttemptBehavior where
  disconnect_ok : Bool
  connect_ok : Bool
  probe : Except Unit ByteStr
  io : Except Unit ByteStr

/-- Result of `_connect` / `_disconnect` / one `_communicate` attempt: the
updated session state, the returned boolean (for an attempt: whether it ran
to completion without a transport error), and the transport-call trace. -/
structure OpResult where
  st : SwitchState
  ok : Bool
  trace : List Event
deriving DecidableEq, Repr

/-- Result of `_communicate`: state, returned boolean, trace, and the number
of connect-plus-I/O attempts performed. -/
structure CommResult where
  st : SwitchState
  ok : Bool
  trace : List Event
  attempts : Nat
deriving DecidableEq, Repr

/-- `Switchmate._disconnect` (src/switch.py lines 80-91): asks the transport
to tear the link down; on success the handle's `is_connected` becomes false,
on failure (caught `BleakError`/timeout) it returns `False` and the device
object is left as it was.  Only ever invoked with `device ≠ none`. -/
def disconnect (b : AttemptBehavior) (st : SwitchState) : OpResult :=
  if b.disconnect_ok then
    ⟨{ st with device := st.device.map fun _ => ⟨false⟩ }, true, [Event.disconnectCall]⟩
  else
    ⟨st, false, [Event.disconnectCall]⟩

/-- `Switchmate._connect` (src/switch.py lines 56-78): if a device object
exists, first `_disconnect` (result ignored); then create a fresh
`BleakClient` and try to connect; on success, if `handle` is still unknown,
probe characteristic 21 and set `handle := 47` if the payload equals
`b"Bright"`, else `45`.  Any transport error inside the `try` returns
`False`. -/
def connect (b : AttemptBehavior) (st : SwitchState) : OpResult :=
  let pre : SwitchState × List Event :=
    match st.device with
    | some _ => let d := disconnect b st; (d.st, d.trace)
    | none => (st, [])
  let st1 : SwitchState := { pre.1 with device := some ⟨false⟩ }
  let tr1 : List Event := pre.2 ++ [Event.newDevice, Event.connectCall]
  if b.connect_ok then
    let st2 : SwitchState := { st1 with device := some ⟨true⟩ }
    match st2.handle with
    | none =>
      let tr2 := tr1 ++ [Event.readChar (some 21)]
      match b.probe with
      | Except.ok payload =>
        ⟨{ st2 with handle := some (if payload = brightPayload then 47 else 45) },
          true, tr2⟩
      | Except.error _ => ⟨st2, false, tr2⟩
    | some _ => ⟨st2, true, tr1⟩
  else
    ⟨st1, false, tr1⟩

/-- Python truthiness of the `key` argument (`if key:` at src/switch.py line
100): `None` and the empty byte string are falsy. -/
def keyTruthy : Option ByteStr → Bool
  | none => false
  | some k => !k.isEmpty

/-- One connect-plus-I/O attempt: the body of the `try` block of
`Switchmate._communicate` (src/switch.py lines 94-107).  If the device is
missing or not connected, `_connect` runs first; a `False` from it raises,
failing the attempt.  Otherwise the attempt writes `key` to `handle` with
acknowledgement, or reads `handle` and stores
`payload == (ON_KEY if not flip_on_off else OFF_KEY)` into `state`.  `ok`
is false iff a transport error was raised during the attempt. -/
def attempt (b : AttemptBehavior) (st : SwitchState) (key : Option ByteStr) : OpResult :=
  let needConnect : Bool :=
    match st.device with
    | none => true
    | some d => !d.connected
  let conn : SwitchState × Bool × List Event :=
    if needConnect then
      let c := connect b st
      (c.st, !c.ok, c.trace)
    else (st, false, [])
  let st1 := conn.1
  if conn.2.1 then ⟨st1, false, conn.2.2⟩
  else if keyTruthy key then
    let k := key.getD []
    let tr2 := conn.2.2 ++ [Event.writeChar st1.handle k true]
    match b.io with
    | Except.ok _ => ⟨st1, true, tr2⟩
    | Except.error _ => ⟨st1, false, tr2⟩
  else
    let tr2 := conn.2.2 ++ [Event.readChar st1.handle]
    match b.io with
    | Except.ok payload =>
      ⟨{ st1 with
          state := decide (payload = if !st1.flip_on_off then ON_KEY else OFF_KEY) },
        true, tr2⟩
    | Except.error _ => ⟨st1, false, tr2⟩

/-- `Switchmate._communicate` (src/switch.py lines 93-118): run one attempt
with behaviour `beh i`; on success set `available := true` and return
`True`; on a transport error, if `retry` then recurse once with
`retry = False` (and the next behaviour index), else set
`available := false` and return `False`. -/
def communicate (beh : Nat → AttemptBehavior) (i : Nat) (st : SwitchState)
    (key : Option ByteStr) (retry : Bool) : CommResult :=
  let a := attempt (beh i) st key
  if a.ok then
    ⟨{ a.st with available := true }, true, a.trace, 1⟩
  else if retry then
    let r := communicate beh (i + 1) a.st key false
    ⟨r.st, r.ok, a.trace ++ r.trace, 1 + r.attempts⟩
  else
    ⟨{ a.st with available := false }, false, a.trace, 1⟩
termination_by cond retry 1 0
decreasing_by simp_all

/-- `Switchmate.update` (src/switch.py lines 120-122). -/
def update (beh : Nat → AttemptBehavior) (st : SwitchState) : CommResult :=
  communicate beh 0 st none true

/-- `Switchmate.turn_on` (src/switch.py lines 124-128). -/
def turn_on (beh : Nat → AttemptBehavior) (st : SwitchState) : CommResult :=
  communicate beh 0 st (some (if !st.flip_on_off then ON_KEY else OFF_KEY)) true

/-- `Switchmate.turn_off` (src/switch.py lines 130-134). -/
def turn_off (beh : Nat → AttemptBehavior) (st : SwitchState) : CommResult :=
  communicate beh 0 st (some (if !st.flip_on_off then OFF_KEY else ON_KEY)) true

/-- `SwitchmateEntity.unique_id` (src/switch.py lines 160-163):
`self._mac.replace(":", "")` — Python `str.replace` with a one-character
pattern and empty replacement deletes every occurrence of that character. -/
def removeColons : List Char → List Char
  | [] => []
  | c :: cs => if c = ':' then removeColons cs else c :: removeColons cs

/-- `SwitchmateEntity.unique_id`, on the address as a character list. -/
def unique_id (mac : List Char) : List Char := removeColons mac

/-- The spec's description of `uniqueId`: the address with all separator
characters (the `:` separators of a MAC address) stripped. -/
def specStripSeparators (mac : List Char) : List Char :=
  mac.filter fun c => !(c == ':')

/-- A freshly constructed session (src/switch.py lines 48-54 with
`flip_on_off = False`): no device object, no cached handle. -/
def sampleIdle : SwitchState :=
  { state := false, device := none, available := false, flip_on_off := false, handle := none }

/-- A session that already discovered handle 45 and holds a live
connection. -/
def sampleKnown : SwitchState :=
  { state := true, device := some ⟨true⟩, available := true, flip_on_off := false,
    handle := some 45 }

/-- A transport behaviour in which every call succeeds, the capability probe
answers `b"Bright"` and reads answer `ON_KEY`. -/
def behaviorOK : AttemptBehavior :=
  { disconnect_ok := true, connect_ok := true, probe := Except.ok brightPayload,
    io := Except.ok ON_KEY }

/-- A transport behaviour in which every call raises. -/
def behaviorFail : AttemptBehavior :=
  { disconnect_ok := false, connect_ok := false, probe := Except.error (),
    io := Except.error () }

lemma communicate_true_eq (beh : Nat → AttemptBehavior) (i : Nat) (st : SwitchState)
    (key : Option ByteStr) :
    communicate beh i st key true =
      (if (attempt (beh i) st key).ok then
        ⟨{ (attempt (beh i) st key).st with available := true }, true,
          (attempt (beh i) st key).trace, 1⟩
      else
        ⟨(communicate beh (i + 1) (attempt (beh i) st key).st key false).st,
          (communicate beh (i + 1) (attempt (beh i) st key).st key false).ok,
          (attempt (beh i) st key).trace ++
            (communicate beh (i + 1) (attempt (beh i) st key).st key false).trace,
          1 + (communicate beh (i + 1) (attempt (beh i) st key).st key false).attempts⟩) := by
  rw [communicate]; split <;> rfl

lemma communicate_false_eq (beh : Nat → AttemptBehavior) (i : Nat) (st : SwitchState)
    (key : Option ByteStr) :
    communicate beh i st key false =
      (if (attempt (beh i) st key).ok then
        ⟨{ (attempt (beh i) st key).st with available := true }, true,
          (attempt (beh i) st key).trace, 1⟩
      else
        ⟨{ (attempt (beh i) st key).st with available := false }, false,
          (attempt (beh i) st key).trace, 1⟩) := by
  rw [communicate]; split <;> rfl

set_option maxHeartbeats 1000000 in
lemma attempt_state_write (b : AttemptBehavior) (st : SwitchState) (key : Option ByteStr)
    (hk : keyTruthy key = true) : (attempt b st key).st.state = st.state := by
  rcases b with ⟨dok, cok, pr, io⟩
  rcases st with ⟨s, dev, av, flip, h⟩
  rcases dev with _ | ⟨c⟩ <;> try rcases c with ⟨⟩ | ⟨⟩
  all_goals cases dok <;> cases cok <;> rcases pr with _ | p <;> rcases io with _ | q <;>
    rcases h with _ | hv <;>
    simp [attempt, connect, disconnect, hk]

set_option maxHeartbeats 1000000 in
lemma attempt_state_of_not_ok (b : AttemptBehavior) (st : SwitchState) (key : Option ByteStr)
    (h : (attempt b st key).ok = false) : (attempt b st key).st.state = st.state := by
  rcases b with ⟨dok, cok, pr, io⟩
  rcases st with ⟨s, dev, av, flip, hd⟩
  rcases key with _ | ⟨_ | ⟨kb, kr⟩⟩ <;>
    rcases dev with _ | ⟨_ | _⟩ <;>
    cases dok <;> cases cok <;> rcases pr with _ | p <;> rcases io with _ | q <;>
    rcases hd with _ | hv <;>
    simp_all [attempt, connect, disconnect, keyTruthy]

set_option maxHeartbeats 1000000 in
lemma attempt_handle_mono (b : AttemptBehavior) (st : SwitchState) (key : Option ByteStr)
    (v : Nat) (h : st.handle = some v) : (attempt b st key).st.handle = some v := by
  rcases b with ⟨dok, cok, pr, io⟩
  rcases st with ⟨s, dev, av, flip, hd⟩
  subst h
  rcases key with _ | ⟨_ | ⟨kb, kr⟩⟩ <;>
    rcases dev with _ | ⟨_ | _⟩ <;>
    cases dok <;> cases cok <;> rcases pr with _ | p <;> rcases io with _ | q <;>
    simp_all [attempt, connect, disconnect, keyTruthy]

set_option maxHeartbeats 1000000 in
lemma attempt_flip (b : AttemptBehavior) (st : SwitchState) (key : Option ByteStr) :
    (attempt b st key).st.flip_on_off = st.flip_on_off := by
  rcases b with ⟨dok, cok, pr, io⟩
  rcases st with ⟨s, dev, av, flip, hd⟩
  rcases key with _ | ⟨_ | ⟨kb, kr⟩⟩ <;>
    rcases dev with _ | ⟨_ | _⟩ <;>
    cases dok <;> cases cok <;> rcases pr with _ | p <;> rcases io with _ | q <;>
    rcases hd with _ | hv <;>
    simp_all [attempt, connect, disconnect, keyTruthy]

set_option maxHeartbeats 1000000 in
lemma attempt_write_mem (b : AttemptBehavior) (st : SwitchState) (k : ByteStr)
    (hk : keyTruthy (some k) = true) (hok : (attempt b st (some k)).ok = true) :
    Event.writeChar (attempt b st (some k)).st.handle k true ∈ (attempt b st (some k)).trace := by
  rcases b with ⟨dok, cok, pr, io⟩
  rcases st with ⟨s, dev, av, flip, hd⟩
  rcases dev with _ | ⟨_ | _⟩ <;>
    cases dok <;> cases cok <;> rcases pr with _ | p <;> rcases io with _ | q <;>
    rcases hd with _ | hv <;>
    simp_all [attempt, connect, disconnect, keyTruthy]

set_option maxHeartbeats 1000000 in
lemma attempt_read_state (b : AttemptBehavior) (st : SwitchState) (p : ByteStr)
    (hio : b.io = Except.ok p) (hok : (attempt b st none).ok = true) :
    (attempt b st none).st.state
      = decide (p = if !st.flip_on_off then ON_KEY else OFF_KEY) := by
  rcases b with ⟨dok, cok, pr, io⟩
  rcases st with ⟨s, dev, av, flip, hd⟩
  cases hio
  rcases dev with _ | ⟨_ | _⟩ <;>
    cases dok <;> cases cok <;> rcases pr with _ | q <;>
    rcases hd with _ | hv <;> cases flip <;>
    simp_all [attempt, connect, disconnect, keyTruthy]

lemma comm_handle_mono (beh : Nat → AttemptBehavior) (i : Nat) (st : SwitchState)
    (key : Option ByteStr) (retry : Bool) (v : Nat) (h : st.handle = some v) :
    (communicate beh i st key retry).st.handle = some v := by
  cases retry
  · rw [communicate_false_eq]
    split <;> simpa using attempt_handle_mono _ _ _ v h
  · rw [communicate_true_eq]
    split
    · simpa using attempt_handle_mono _ _ _ v h
    · simp only
      rw [communicate_false_eq]
      split <;> simpa using attempt_handle_mono _ _ _ v (attempt_handle_mono _ _ _ v h)

lemma comm_state_write (beh : Nat → AttemptBehavior) (i : Nat) (st : SwitchState)
    (key : Option ByteStr) (retry : Bool) (hk : keyTruthy key = true) :
    (communicate beh i st key retry).st.state = st.state := by
  cases retry
  · rw [communicate_false_eq]
    split <;> simpa using attempt_state_write _ _ _ hk
  · rw [communicate_true_eq]
    split
    · simpa using attempt_state_write _ _ _ hk
    · simp only
      rw [communicate_false_eq]
      split <;>
        simp [attempt_state_write _ _ _ hk, attempt_state_write _ ((attempt (beh i) st key).st) _ hk]

lemma comm_write_mem (beh : Nat → AttemptBehavior) (i : Nat) (st : SwitchState) (k : ByteStr)
    (hk : keyTruthy (some k) = true)
    (hok : (communicate beh i st (some k) true).ok = true) :
    Event.writeChar (communicate beh i st (some k) true).st.handle k true
      ∈ (communicate beh i st (some k) true).trace := by
  cases hA : (attempt (beh i) st (some k)).ok
  · cases hB : (attempt (beh (i + 1)) (attempt (beh i) st (some k)).st (some k)).ok
    · exfalso
      rw [communicate_true_eq] at hok
      simp only [hA, Bool.false_eq_true, if_false] at hok
      rw [communicate_false_eq] at hok
      simp [hB] at hok
    · rw [communicate_true_eq]
      simp only [hA, Bool.false_eq_true, if_false]
      rw [communicate_false_eq]
      simp only [hB, if_true]
      simp only [List.mem_append]
      exact Or.inr (by simpa using attempt_write_mem _ _ _ hk hB)
  · rw [communicate_true_eq]
    simp only [hA, if_true]
    simpa using attempt_write_mem _ _ _ hk hA

lemma connect_handle_mono (b : AttemptBehavior) (st : SwitchState) (v : Nat)
    (h : st.handle = some v) : (connect b st).st.handle = some v := by
  rcases b with ⟨dok, cok, pr, io⟩
  rcases st with ⟨s, dev, av, flip, hd⟩
  subst h
  rcases dev with _ | ⟨_ | _⟩ <;>
    cases dok <;> cases cok <;> rcases pr with _ | p <;>
    simp_all [connect, disconnect]

lemma disconnect_handle (b : AttemptBehavior) (st : SwitchState) :
    (disconnect b st).st.handle = st.handle := by
  unfold disconnect; split <;> simp

/-- Claim C1: `_communicate` with `retry=true` performs at most 2
connect-plus-I/O attempts before returning; with `retry=false` it performs
exactly 1 — the recursive self-call passes `retry=false`, so the recursion
stops after the second attempt. -/
theorem communicate_retry_attempt_bound (beh : Nat → AttemptBehavior) (i : Nat)
    (st : SwitchState) (key : Option ByteStr) :
    (communicate beh i st key true).attempts ≤ 2 ∧
    (communicate beh i st key false).attempts = 1 := by
  constructor
  · rw [communicate_true_eq]
    split
    · simp
    · simp only
      rw [communicate_false_eq]
      split <;> simp
  · rw [communicate_false_eq]
    split <;> rfl

/-- Claim C2: `_communicate` returns true iff some attempt succeeded, and on
return the `available` flag equals the returned boolean: failure after the
retry budget is exhausted leaves `available = false`, success leaves
`available = true` (hence likewise for `update`, `turn_on`, `turn_off`,
which are `_communicate` calls). -/
theorem communicate_result_matches_available (beh : Nat → AttemptBehavior) (i : Nat)
    (st : SwitchState) (key : Option ByteStr) (retry : Bool) :
    (communicate beh i st key retry).st.available = (communicate beh i st key retry).ok ∧
    ((communicate beh i st key retry).ok = true ↔
      ((attempt (beh i) st key).ok = true ∨
        (retry = true ∧ (attempt (beh (i + 1)) (attempt (beh i) st key).st key).ok = true))) := by
  cases retry
  · rw [communicate_false_eq]
    split
    · rename_i hA; simp [hA]
    · rename_i hA; rw [Bool.not_eq_true] at hA; simp [hA]
  · rw [communicate_true_eq]
    split
    · rename_i hA; simp [hA]
    · rename_i hA; rw [Bool.not_eq_true] at hA
      simp only
      rw [communicate_false_eq]
      split
      · rename_i hB; simp [hA, hB]
      · rename_i hB; rw [Bool.not_eq_true] at hB; simp [hA, hB]

/-- Claim C3: during `_connect`, when the handle is unknown and the
transport link is established, the capability read resolves the handle:
payload `b"Bright"` gives 47, any other payload (the empty one included)
gives 45, and `_connect` returns `True`. -/
theorem connect_probe_resolves_handle (b : AttemptBehavior) (st : SwitchState) (p : ByteStr)
    (h1 : st.handle = none) (h2 : b.connect_ok = true) (h3 : b.probe = Except.ok p) :
    (connect b st).st.handle = some (if p = brightPayload then 47 else 45) ∧
    (connect b st).ok = true := by
  rcases hdev : st.device with _ | d
  · simp [connect, disconnect, hdev, h1, h2, h3]
  · cases hdok : b.disconnect_ok <;>
      simp [connect, disconnect, hdev, hdok, h1, h2, h3]

/-- Witness for claim C3 at a concrete input: a fresh session, an
all-success transport whose probe answers `b"Bright"`. -/
theorem connect_probe_resolves_handle_witness :
    sampleIdle.handle = none ∧
    ((connect behaviorOK sampleIdle).st.handle
        = some (if brightPayload = brightPayload then 47 else 45) ∧
      (connect behaviorOK sampleIdle).ok = true) :=
  ⟨rfl, connect_probe_resolves_handle behaviorOK sampleIdle brightPayload rfl rfl rfl⟩

/-- Claim C4: `turn_on` writes the ON marker byte when `flip_on_off` is
false and the OFF marker when it is true, and `turn_off` writes the opposite
marker in each case, to the cached command handle with acknowledgement
requested, through the write branch of `_communicate`. -/
theorem turn_on_off_write_marker (beh : Nat → AttemptBehavior) (st : SwitchState) :
    ((turn_on beh st).ok = true →
      Event.writeChar (turn_on beh st).st.handle
        (if st.flip_on_off then OFF_KEY else ON_KEY) true ∈ (turn_on beh st).trace) ∧
    ((turn_off beh st).ok = true →
      Event.writeChar (turn_off beh st).st.handle
        (if st.flip_on_off then ON_KEY else OFF_KEY) true ∈ (turn_off beh st).trace) := by
  constructor
  · intro hok
    unfold turn_on at hok ⊢
    cases hf : st.flip_on_off <;>
      simp only [hf, Bool.not_false, Bool.not_true, if_true, if_false] at hok ⊢ <;>
      exact comm_write_mem beh 0 st _ rfl hok
  · intro hok
    unfold turn_off at hok ⊢
    cases hf : st.flip_on_off <;>
      simp only [hf, Bool.not_false, Bool.not_true, if_true, if_false] at hok ⊢ <;>
      exact comm_write_mem beh 0 st _ rfl hok

/-- Witness for claim C4 at a concrete input: a fresh session with
`flip_on_off = false` against an all-success transport. -/
theorem turn_on_off_write_marker_witness :
    Event.writeChar (turn_on (fun _ => behaviorOK) sampleIdle).st.handle
        (if sampleIdle.flip_on_off then OFF_KEY else ON_KEY) true
      ∈ (turn_on (fun _ => behaviorOK) sampleIdle).trace ∧
    Event.writeChar (turn_off (fun _ => behaviorOK) sampleIdle).st.handle
        (if sampleIdle.flip_on_off then ON_KEY else OFF_KEY) true
      ∈ (turn_off (fun _ => behaviorOK) sampleIdle).trace :=
  ⟨(turn_on_off_write_marker (fun _ => behaviorOK) sampleIdle).1
      (by simp [turn_on, communicate, attempt, connect, disconnect, keyTruthy,
        sampleIdle, behaviorOK, ON_KEY, OFF_KEY, brightPayload]),
    (turn_on_off_write_marker (fun _ => behaviorOK) sampleIdle).2
      (by simp [turn_off, communicate, attempt, connect, disconnect, keyTruthy,
        sampleIdle, behaviorOK, ON_KEY, OFF_KEY, brightPayload])⟩

/-- Claim C5: a successful state query (`update`, i.e. `_communicate` with
no key) stores into `state` exactly whether the payload read equals the ON
marker when `flip_on_off` is false, or the OFF marker when it is true; every
other payload yields `state = false`. -/
theorem update_read_sets_state (beh : Nat → AttemptBehavior) (st : SwitchState) (p : ByteStr)
    (hio : ∀ j, (beh j).io = Except.ok p)
    (hok : (update beh st).ok = true) :
    (update beh st).st.state = true ↔
      p = (if st.flip_on_off then OFF_KEY else ON_KEY) := by
  unfold update at hok ⊢
  cases hA : (attempt (beh 0) st none).ok
  · cases hB : (attempt (beh (0 + 1)) (attempt (beh 0) st none).st none).ok
    · exfalso
      rw [communicate_true_eq] at hok
      simp only [hA, Bool.false_eq_true, if_false] at hok
      rw [communicate_false_eq] at hok
      simp [hB] at hok
    · rw [communicate_true_eq]
      simp only [hA, Bool.false_eq_true, if_false]
      rw [communicate_false_eq]
      simp only [hB, if_true]
      have h1 := attempt_read_state (beh (0 + 1)) (attempt (beh 0) st none).st p (hio (0 + 1)) hB
      have h2 := attempt_flip (beh 0) st none
      rw [h2] at h1
      simp only [h1]
      cases hf : st.flip_on_off <;> simp [hf]
  · rw [communicate_true_eq]
    simp only [hA, if_true]
    have h1 := attempt_read_state (beh 0) st p (hio 0) hA
    simp only [h1]
    cases hf : st.flip_on_off <;> simp [hf]

/-- Witness for claim C5 at a concrete input: a fresh session against an
all-success transport whose reads answer `ON_KEY`. -/
theorem update_read_sets_state_witness :
    (update (fun _ => behaviorOK) sampleIdle).st.state = true ↔
      ON_KEY = (if sampleIdle.flip_on_off then OFF_KEY else ON_KEY) :=
  update_read_sets_state (fun _ => behaviorOK) sampleIdle ON_KEY (fun _ => rfl)
    (by simp [update, communicate, attempt, connect, disconnect, keyTruthy,
      sampleIdle, behaviorOK, ON_KEY, OFF_KEY, brightPayload])

/-- Claim C6: a `_communicate` call that returns `False` (every attempt
failed) leaves the cached on/off `state` exactly as it was before the
call. -/
theorem failed_communicate_preserves_state (beh : Nat → AttemptBehavior) (i : Nat)
    (st : SwitchState) (key : Option ByteStr) (retry : Bool)
    (h : (communicate beh i st key retry).ok = false) :
    (communicate beh i st key retry).st.state = st.state := by
  cases retry
  · rw [communicate_false_eq] at h ⊢
    split at h
    · simp at h
    · rename_i hA
      rw [Bool.not_eq_true] at hA
      simp [hA, attempt_state_of_not_ok _ _ _ hA]
  · rw [communicate_true_eq] at h ⊢
    split at h
    · simp at h
    · rename_i hA
      rw [Bool.not_eq_true] at hA
      simp only at h ⊢
      rw [communicate_false_eq] at h ⊢
      split at h
      · simp at h
      · rename_i hB
        rw [Bool.not_eq_true] at hB
        simp [hA, hB, attempt_state_of_not_ok _ _ _ hB, attempt_state_of_not_ok _ _ _ hA]

/-- Witness for claim C6 at a concrete input: a fresh session against an
all-failing transport; both attempts fail and `state` is unchanged. -/
theorem failed_communicate_preserves_state_witness :
    (communicate (fun _ => behaviorFail) 0 sampleIdle none true).st.state
      = sampleIdle.state :=
  failed_communicate_preserves_state (fun _ => behaviorFail) 0 sampleIdle none true
    (by simp [communicate, attempt, connect, disconnect, keyTruthy,
      sampleIdle, behaviorFail])

/-- Claim C7: once `handle` holds a value, no operation — `_connect`,
`_disconnect`, `_communicate`, `update`, `turn_on`, `turn_off` — changes it
or resets it to unknown, reconnects included. -/
theorem handle_set_once_persists (b : AttemptBehavior) (beh : Nat → AttemptBehavior)
    (i : Nat) (st : SwitchState) (key : Option ByteStr) (retry : Bool) (v : Nat)
    (h : st.handle = some v) :
    (connect b st).st.handle = some v ∧
    (disconnect b st).st.handle = some v ∧
    (communicate beh i st key retry).st.handle = some v ∧
    (update beh st).st.handle = some v ∧
    (turn_on beh st).st.handle = some v ∧
    (turn_off beh st).st.handle = some v :=
  ⟨connect_handle_mono b st v h, (disconnect_handle b st).trans h,
    comm_handle_mono beh i st key retry v h,
    comm_handle_mono beh 0 st none true v h,
    comm_handle_mono beh 0 st _ true v h,
    comm_handle_mono beh 0 st _ true v h⟩

/-- Witness for claim C7 at a concrete input: a session holding handle 45
against an all-success transport. -/
theorem handle_set_once_persists_witness :
    (connect behaviorOK sampleKnown).st.handle = some 45 ∧
    (disconnect behaviorOK sampleKnown).st.handle = some 45 ∧
    (communicate (fun _ => behaviorOK) 0 sampleKnown none true).st.handle = some 45 ∧
    (update (fun _ => behaviorOK) sampleKnown).st.handle = some 45 ∧
    (turn_on (fun _ => behaviorOK) sampleKnown).st.handle = some 45 ∧
    (turn_off (fun _ => behaviorOK) sampleKnown).st.handle = some 45 :=
  handle_set_once_persists behaviorOK (fun _ => behaviorOK) 0 sampleKnown none true 45 rfl

/-- Claim C8: `_connect` invoked while a transport handle from a previous
session exists first issues the disconnect of the old link, then creates the
new client object and issues the new connect, in that order. -/
theorem connect_tears_down_stale_link (b : AttemptBehavior) (st : SwitchState)
    (d : BleakClient) (h : st.device = some d) :
    ∃ rest, (connect b st).trace =
      Event.disconnectCall :: Event.newDevice :: Event.connectCall :: rest := by
  rcases hh : st.handle with _ | hv <;> rcases hpr : b.probe with u | p <;>
    cases hdok : b.disconnect_ok <;> cases hcok : b.connect_ok <;>
    simp [connect, disconnect, h, hh, hpr, hdok, hcok]

/-- Witness for claim C8 at a concrete input: a session with a live device
object from a previous connection. -/
theorem connect_tears_down_stale_link_witness :
    ∃ rest, (connect behaviorOK sampleKnown).trace =
      Event.disconnectCall :: Event.newDevice :: Event.connectCall :: rest :=
  connect_tears_down_stale_link behaviorOK sampleKnown ⟨true⟩ rfl

/-- Claim C9: `unique_id` is the device address with every `:` separator
character stripped — and, being a function of the address alone, it is
deterministic in the address. -/
theorem unique_id_strips_separators (mac : List Char) :
    unique_id mac = specStripSeparators mac := by
  induction mac with
  | nil => rfl
  | cons c cs ih =>
    by_cases hc : c = ':' <;>
      simp_all [unique_id, removeColons, specStripSeparators, List.filter_cons, hc]

/-- Claim C10: `turn_on` and `turn_off` never modify the cached on/off
`state` — the write branch of `_communicate` leaves it untouched whether or
not the write is acknowledged, so the reported logical state stays whatever
the last `update` read. -/
theorem turn_write_preserves_state (beh : Nat → AttemptBehavior) (st : SwitchState) :
    (turn_on beh st).st.state = st.state ∧ (turn_off beh st).st.state = st.state := by
  constructor
  · unfold turn_on
    cases hf : st.flip_on_off <;>
      simp only [hf, Bool.not_false, Bool.not_true, if_true, if_false] <;>
      exact comm_state_write beh 0 st _ true rfl
  · unfold turn_off
    cases hf : st.flip_on_off <;>
      simp only [hf, Bool.not_false, Bool.not_true, if_true, if_false] <;>
      exact comm_state_write beh 0 st _ true rfl

end Switchmate
